import Mathlib

/-!
Shallow embedding of `data_fetcher.py` (lithium-market repository).

Modelling conventions:
* Calendar dates are modelled as integers (day numbers); `today - i` stands for
  the date `i` days before the invocation date, and the `YYYY-MM-DD` strings of
  the source are identified with these day numbers.
* Python floats are modelled as rationals (`ℚ`); every arithmetic operation the
  source performs on prices (five-digit values, sums below 2·10^5, halving,
  subtracting 2200) is exact in IEEE double precision, so the rational model is
  faithful.
* Network fetches are modelled by an `Option String` argument: `none` stands
  for a raised exception or timeout, `some text` for a successful fetch whose
  extracted page text is `text` (the source runs `soup.get_text()` on the
  response; the claims all speak about that text).
* A `print` of a diagnostic line is modelled by a `Bool` component of the
  result (`true` iff a warning line was written to standard output).
-/

/-- A point of the synthesized price history: `history.append({'date': date, 'price': price})`.
Prices here are Python ints. -/
structure HistoryPoint where
  date : Int
  price : Int
deriving DecidableEq, Repr

/-- Embedding of `LithiumMarketDataFetcher.generate_price_history`
(`data_fetcher.py` lines 132-148): for `i` in `range(30, 0, -1)` append the
point with date `today - i` and price `80500 + (i % 10) * 500 - 2000`.
The Python loop counts `i = 30, 29, ..., 1`; element `k` of the resulting
list corresponds to `i = 30 - k`. -/
def generate_price_history (today : Int) : List HistoryPoint :=
  (List.range 30).map (fun k =>
    let i : Nat := 30 - k
    { date := today - (i : Int), price := 80500 + ((i % 10 : Nat) : Int) * 500 - 2000 })

/-!
### The price regex of the fetchers

`fetch_smm_price` runs `re.findall(r'(\d{5})\s*-\s*(\d{5})|(\d{5})', text)` and
uses the first match; `fetch_futures_price` runs `re.findall(r'(\d{5})', text)`.
We embed the regex engine's behaviour on these two patterns directly: scan the
text left to right; at each position try the pair alternative first (five
digits, optional whitespace, a hyphen, optional whitespace, five digits), then
the single five-digit alternative; the first position where one succeeds gives
the first match, the pair alternative preferred.
-/

/-- A decimal digit character, as matched by the pattern `\d` (codes 48-57). -/
def isDigitChar (c : Char) : Bool := 48 ≤ c.toNat && c.toNat ≤ 57

/-- Numeric value of a digit character. -/
def digitVal (c : Char) : Nat := c.toNat - 48

/-- Whitespace as matched by the pattern `\s` (space, tab, LF, VT, FF, CR). -/
def isSpaceChar (c : Char) : Bool :=
  c = ' ' || c = '\t' || c = '\n' || c = '\x0b' || c = '\x0c' || c = '\r'

/-- Match `\d{5}` at the head of the character list, returning the value of the
five digits and the remaining characters. -/
def fiveDigits : List Char → Option (Nat × List Char)
  | a :: b :: c :: d :: e :: rest =>
    if isDigitChar a && isDigitChar b && isDigitChar c && isDigitChar d && isDigitChar e then
      some (digitVal a * 10000 + digitVal b * 1000 + digitVal c * 100 +
              digitVal d * 10 + digitVal e, rest)
    else none
  | _ => none

/-- Skip the (maximal) run of whitespace, as `\s*` does. -/
def skipSpaces : List Char → List Char
  | [] => []
  | c :: rest => if isSpaceChar c then skipSpaces rest else c :: rest

/-- Match the pair alternative `(\d{5})\s*-\s*(\d{5})` at the head of the list. -/
def matchPairAt (cs : List Char) : Option (Nat × Nat) :=
  match fiveDigits cs with
  | none => none
  | some (lo, rest) =>
    match skipSpaces rest with
    | '-' :: rest2 =>
      match fiveDigits (skipSpaces rest2) with
      | some (hi, _) => some (lo, hi)
      | none => none
    | _ => none

/-- The first match of `(\d{5})\s*-\s*(\d{5})|(\d{5})`: either a pair
(groups 1 and 2 non-empty) or a single five-digit number (group 3). -/
inductive PriceMatch where
  | pair (low high : Nat)
  | single (n : Nat)
deriving DecidableEq, Repr

/-- Try the alternation at one position: pair alternative first. -/
def matchAt (cs : List Char) : Option PriceMatch :=
  match matchPairAt cs with
  | some (lo, hi) => some (.pair lo hi)
  | none =>
    match fiveDigits cs with
    | some (n, _) => some (.single n)
    | none => none

/-- The first (leftmost) match of the spot-price pattern in the text,
i.e. `re.findall(price_pattern, text)[0]` when the list is non-empty. -/
def findFirstMatch : List Char → Option PriceMatch
  | [] => none
  | c :: rest =>
    match matchAt (c :: rest) with
    | some m => some m
    | none => findFirstMatch rest

/-- The first five-digit match of `(\d{5})` in the text, as used by
`fetch_futures_price`. -/
def findFirstFive : List Char → Option Nat
  | [] => none
  | c :: rest =>
    match fiveDigits (c :: rest) with
    | some (n, _) => some n
    | none => findFirstFive rest

/-!
### Spot price fetcher
-/

/-- The dict built by `fetch_smm_price`:
`{'date': ..., 'battery_grade_price': ..., 'industrial_grade_price': ..., 'change': ...}`. -/
structure PriceData where
  date : Int
  battery_grade_price : Option ℚ
  industrial_grade_price : Option ℚ
  change : ℚ
deriving DecidableEq, Repr

/-- Embedding of `LithiumMarketDataFetcher.fetch_smm_price`
(`data_fetcher.py` lines 27-84).  `fetched = none` models the `except` path
(a raised exception or timeout); `fetched = some text` models a successful GET
whose extracted page text is `text`.  The returned `Bool` is `true` iff the
function printed a warning line (the pattern-not-found branch prints the
simulated-data warning, the `except` branch prints the failure message; the
success branch prints nothing). -/
def fetch_smm_price (today : Int) (fetched : Option String) : PriceData × Bool :=
  match fetched with
  | none =>
    ({ date := today, battery_grade_price := some 80500.0,
       industrial_grade_price := some 78300.0, change := -0.5 }, true)
  | some text =>
    let battery : Option ℚ :=
      match findFirstMatch text.toList with
      | some (.pair lo hi) => some (((lo : ℚ) + (hi : ℚ)) / 2)
      | some (.single n) => some (n : ℚ)
      | none => none
    match battery with
    | none =>
      ({ date := today, battery_grade_price := some 80500.0,
         industrial_grade_price := some 78300.0, change := -0.5 }, true)
    | some b =>
      ({ date := today, battery_grade_price := some b,
         industrial_grade_price := some (b - 2200), change := -0.5 }, false)

/-!
### Futures price fetcher
-/

/-- The dict built by `fetch_futures_price`:
`{'futures_price': ..., 'futures_change': ...}`. -/
structure FuturesData where
  futures_price : Option ℚ
  futures_change : ℚ
deriving DecidableEq, Repr

/-- Embedding of `LithiumMarketDataFetcher.fetch_futures_price`
(`data_fetcher.py` lines 86-130), with the same conventions as
`fetch_smm_price`. -/
def fetch_futures_price (fetched : Option String) : FuturesData × Bool :=
  match fetched with
  | none => ({ futures_price := some 79800.0, futures_change := 0.3 }, true)
  | some text =>
    match findFirstFive text.toList with
    | some n => ({ futures_price := some (n : ℚ), futures_change := 0.3 }, false)
    | none => ({ futures_price := some 79800.0, futures_change := 0.3 }, true)

/-!
### Aggregation, AI summary, full pipeline
-/

/-- The `spot_price` projection inside `market_data`. -/
structure SpotProj where
  battery_grade : Option ℚ
  industrial_grade : Option ℚ
  daily_change_percent : ℚ
deriving DecidableEq, Repr

/-- The `futures_price` projection inside `market_data`. -/
structure FuturesProj where
  lc_main : Option ℚ
  daily_change_percent : ℚ
deriving DecidableEq, Repr

/-- The aggregated `market_data` dict built by `fetch_all_data`
(timestamps, like dates, are modelled by integers). -/
structure MarketData where
  timestamp : Int
  date : Int
  spot_price : SpotProj
  futures_price : FuturesProj
  price_history : List HistoryPoint
deriving DecidableEq, Repr

/-- `market_data` after `main` adds the `ai_analysis` key. -/
structure MarketReport extends MarketData where
  ai_analysis : String
deriving DecidableEq, Repr

/-- Embedding of `LithiumMarketDataFetcher.fetch_all_data`
(`data_fetcher.py` lines 150-181): run both fetchers, synthesize the history,
and merge into one record. -/
def fetch_all_data (today ts : Int) (smmFetched futFetched : Option String) :
    MarketData :=
  let spot := (fetch_smm_price today smmFetched).1
  let fut := (fetch_futures_price futFetched).1
  { timestamp := ts
    date := spot.date
    spot_price :=
      { battery_grade := spot.battery_grade_price
        industrial_grade := spot.industrial_grade_price
        daily_change_percent := spot.change }
    futures_price :=
      { lc_main := fut.futures_price
        daily_change_percent := fut.futures_change }
    price_history := generate_price_history today }

/-- Python's `str.strip()`: remove leading and trailing whitespace. -/
def strip (s : String) : String :=
  { data := ((s.data.dropWhile isSpaceChar).reverse.dropWhile isSpaceChar).reverse }

/-- Embedding of `LithiumMarketDataFetcher.generate_ai_analysis`
(`data_fetcher.py` lines 194-236).  `llmResult = none` models any failure of
the `try` block (network, auth, quota, malformed response): the function then
falls back on the sign of `market_data['spot_price']['daily_change_percent']`.
`llmResult = some s` models a successful completion whose message content is
`s`; the source returns `content.strip()`. -/
def generate_ai_analysis (llmResult : Option String) (market_data : MarketData) :
    String :=
  match llmResult with
  | some s => strip s
  | none =>
    let change := market_data.spot_price.daily_change_percent
    if change > 0 then
      "今日电池级碳酸锂价格小幅上涨，市场供需关系相对均衡。期货主力合约跟涨，显示市场情绪稳定。"
    else if change < 0 then
      "今日电池级碳酸锂价格小幅下跌，市场观望情绪浓厚。期货主力合约走势疲弱，建议关注下游备货节奏。"
    else
      "今日电池级碳酸锂价格保持稳定，市场交投清淡。期货主力合约横盘整理，等待新的市场信号。"

/-- The canned rising-market fallback sentence (`data_fetcher.py` line 232). -/
def rising_summary : String :=
  "今日电池级碳酸锂价格小幅上涨，市场供需关系相对均衡。期货主力合约跟涨，显示市场情绪稳定。"

/-- The canned falling-market fallback sentence (`data_fetcher.py` line 234). -/
def falling_summary : String :=
  "今日电池级碳酸锂价格小幅下跌，市场观望情绪浓厚。期货主力合约走势疲弱，建议关注下游备货节奏。"

/-- The canned flat-market fallback sentence (`data_fetcher.py` line 236). -/
def flat_summary : String :=
  "今日电池级碳酸锂价格保持稳定，市场交投清淡。期货主力合约横盘整理，等待新的市场信号。"

/-- Embedding of the report-building part of `main` (`data_fetcher.py`
lines 239-254): fetch all data, generate the summary, attach it as
`ai_analysis`.  (Persistence is modelled separately by `save_data`.) -/
def main_report (today ts : Int) (smmFetched futFetched llmResult : Option String) :
    MarketReport :=
  let market_data := fetch_all_data today ts smmFetched futFetched
  { toMarketData := market_data
    ai_analysis := generate_ai_analysis llmResult market_data }

/-!
### Persistence (`save_data`)

`save_data` runs `os.makedirs(os.path.dirname(self.data_file), exist_ok=True)`
and then `json.dump(data, f, ensure_ascii=False, indent=2)`.  We model the
filesystem explicitly (a set of existing directories plus a map from paths to
stored JSON values) and the `json` layer at the level of JSON values:
`json.dump` stores the JSON value of the report (with `ensure_ascii=False`
string contents are written literally, so the stored string field is the
report's string, non-ASCII included), `json.load` reads it back.  Structural
round-trip fidelity is then the statement that decoding the encoded JSON value
recovers the report.  Filesystem failures are modelled by two flags: the
source wraps neither call in a `try`, so a failing call makes `save_data`
propagate the error (`Except.error`). -/

/-- JSON values, with Python's int/float distinction (which `json` preserves
through dump/load). -/
inductive Jval where
  | null
  | jint (n : Int)
  | jnum (q : ℚ)
  | jstr (s : String)
  | jarr (elems : List Jval)
  | jobj (fields : List (String × Jval))

/-- Encode an optional price the way `json.dump` serializes the dict entry
(`None` becomes `null`, a float becomes a number). -/
def encOptQ : Option ℚ → Jval
  | none => .null
  | some q => .jnum q

/-- Encode one history point (`{'date': ..., 'price': ...}`). -/
def encPoint (p : HistoryPoint) : Jval :=
  .jobj [("date", .jint p.date), ("price", .jint p.price)]

/-- Encode the full report dict in the key order `fetch_all_data` and `main`
build it. -/
def encReport (r : MarketReport) : Jval :=
  .jobj
    [("timestamp", .jint r.timestamp),
     ("date", .jint r.date),
     ("spot_price", .jobj
        [("battery_grade", encOptQ r.spot_price.battery_grade),
         ("industrial_grade", encOptQ r.spot_price.industrial_grade),
         ("daily_change_percent", .jnum r.spot_price.daily_change_percent)]),
     ("futures_price", .jobj
        [("lc_main", encOptQ r.futures_price.lc_main),
         ("daily_change_percent", .jnum r.futures_price.daily_change_percent)]),
     ("price_history", .jarr (r.price_history.map encPoint)),
     ("ai_analysis", .jstr r.ai_analysis)]

/-- Decode an optional price. -/
def decOptQ : Jval → Option (Option ℚ)
  | .null => some none
  | .jnum q => some (some q)
  | _ => none

/-- Decode one history point. -/
def decPoint : Jval → Option HistoryPoint
  | .jobj [(kd, .jint d), (kp, .jint p)] =>
    if kd = "date" then if kp = "price" then some { date := d, price := p }
    else none else none
  | _ => none

/-- Decode a list of history points, failing if any element fails. -/
def decPoints : List Jval → Option (List HistoryPoint)
  | [] => some []
  | v :: vs =>
    match decPoint v, decPoints vs with
    | some p, some ps => some (p :: ps)
    | _, _ => none

/-- Decode the `spot_price` projection. -/
def decSpot : Jval → Option SpotProj
  | .jobj [(k1, bg), (k2, ig), (k3, .jnum c)] =>
    if k1 = "battery_grade" then if k2 = "industrial_grade" then
    if k3 = "daily_change_percent" then
      match decOptQ bg, decOptQ ig with
      | some b, some i =>
          some { battery_grade := b, industrial_grade := i, daily_change_percent := c }
      | _, _ => none
    else none else none else none
  | _ => none

/-- Decode the `futures_price` projection. -/
def decFut : Jval → Option FuturesProj
  | .jobj [(k1, lc), (k2, .jnum c)] =>
    if k1 = "lc_main" then if k2 = "daily_change_percent" then
      match decOptQ lc with
      | some l => some { lc_main := l, daily_change_percent := c }
      | none => none
    else none else none
  | _ => none

/-- Decode a full report. -/
def decReport : Jval → Option MarketReport
  | .jobj [(k1, .jint ts), (k2, .jint d), (k3, sp), (k4, fp),
           (k5, .jarr pts), (k6, .jstr aa)] =>
    if k1 = "timestamp" then if k2 = "date" then if k3 = "spot_price" then
    if k4 = "futures_price" then if k5 = "price_history" then
    if k6 = "ai_analysis" then
      match decSpot sp, decFut fp, decPoints pts with
      | some s, some f, some h =>
          some { timestamp := ts, date := d, spot_price := s, futures_price := f,
                 price_history := h, ai_analysis := aa }
      | _, _, _ => none
    else none else none else none else none else none else none
  | _ => none

/-- A filesystem path, as its list of components. -/
abbrev FilePath' := List String

/-- `self.data_file = '/home/ubuntu/lithium_market_report/data/market_data.json'`. -/
def data_file : FilePath' :=
  ["home", "ubuntu", "lithium_market_report", "data", "market_data.json"]

/-- `os.path.dirname`: drop the final component. -/
def dirname (p : FilePath') : FilePath' := p.dropLast

/-- All non-empty prefixes of a path: the directories `os.makedirs` creates
(or finds existing, with `exist_ok=True`). -/
def pathAncestors : FilePath' → List FilePath'
  | [] => []
  | c :: rest => [c] :: (pathAncestors rest).map (fun q => c :: q)

/-- A modelled filesystem: the set of existing directories and the stored
files (a later entry for the same path is shadowed by an earlier one, giving
overwrite semantics). -/
structure FS where
  dirs : List FilePath'
  files : List (FilePath' × Jval)

/-- `os.makedirs(d, exist_ok=True)`: afterwards every prefix of `d` exists. -/
def makedirs (fs : FS) (d : FilePath') : FS :=
  { fs with dirs := fs.dirs ++ pathAncestors d }

/-- Write (create or overwrite) a file. -/
def writeFile' (fs : FS) (p : FilePath') (v : Jval) : FS :=
  { fs with files := (p, v) :: fs.files }

/-- Read a file back. -/
def readFile' (fs : FS) (p : FilePath') : Option Jval :=
  (fs.files.find? (fun e => decide (e.1 = p))).map (fun e => e.2)

/-- Embedding of `LithiumMarketDataFetcher.save_data`
(`data_fetcher.py` lines 183-192).  `mkdirOk` / `writeOk` model whether the
two filesystem calls succeed; neither is wrapped in a `try`, so a failure
propagates out of `save_data` (`Except.error`). -/
def save_data (mkdirOk writeOk : Bool) (fs : FS) (data : MarketReport) :
    Except Unit FS :=
  if mkdirOk then
    let fs1 := makedirs fs (dirname data_file)
    if writeOk then
      Except.ok (writeFile' fs1 data_file (encReport data))
    else Except.error ()
  else Except.error ()

/-- A concrete report used to instantiate the persistence statements on a
closed input (its summary text is non-ASCII, as the real summaries are). -/
def sampleReport : MarketReport :=
  { timestamp := 5
    date := 4
    spot_price :=
      { battery_grade := some 80500.0
        industrial_grade := some 78300.0
        daily_change_percent := -0.5 }
    futures_price := { lc_main := some 79800.0, daily_change_percent := 0.3 }
    price_history := [{ date := 3, price := 81000 }]
    ai_analysis := "市场平稳" }

/-!
## Helper lemmas
-/

lemma decOptQ_encOptQ (x : Option ℚ) : decOptQ (encOptQ x) = some x := by
  cases x <;> rfl

lemma decPoint_encPoint (p : HistoryPoint) : decPoint (encPoint p) = some p := by
  simp [decPoint, encPoint]

lemma decPoints_map_encPoint (l : List HistoryPoint) :
    decPoints (l.map encPoint) = some l := by
  induction l with
  | nil => rfl
  | cons p ps ih => simp [decPoints, decPoint_encPoint, ih]

/-- The JSON layer round-trips: decoding the encoded report recovers every
field of the report. -/
lemma decReport_encReport (r : MarketReport) : decReport (encReport r) = some r := by
  rcases r with ⟨⟨ts, d, ⟨bg, ig, sc⟩, ⟨lc, fc⟩, ph⟩, aa⟩
  simp [decReport, encReport, decSpot, decFut, decOptQ_encOptQ, decPoints_map_encPoint]

lemma generate_price_history_length (today : Int) :
    (generate_price_history today).length = 30 := by
  simp [generate_price_history]

/-- Element `k` of the generated history (for `k < 30`) is the point `30 - k`
days before `today`, with the source's price formula. -/
lemma generate_price_history_getElem (today : Int) (k : Nat) (hk : k < 30) :
    (generate_price_history today)[k]? =
      some { date := today - ((30 - k : Nat) : Int),
             price := 80500 + (((30 - k) % 10 : Nat) : Int) * 500 - 2000 } := by
  simp [generate_price_history, List.getElem?_map, List.getElem?_range, hk]

lemma digitVal_le_of_isDigitChar {c : Char} (h : isDigitChar c = true) :
    digitVal c ≤ 9 := by
  simp only [isDigitChar, Bool.and_eq_true, decide_eq_true_eq] at h
  simp only [digitVal]
  omega

/-- Any value matched by `\d{5}` is at most 99999 (leading zeros can make it
smaller than 10000, but never larger than five nines). -/
lemma fiveDigits_le {cs : List Char} {n : Nat} {rest : List Char}
    (h : fiveDigits cs = some (n, rest)) : n ≤ 99999 := by
  unfold fiveDigits at h
  split at h
  · rename_i a b c d e r
    split at h
    · rename_i hd
      simp only [Bool.and_eq_true] at hd
      obtain ⟨⟨⟨⟨ha, hb⟩, hc⟩, hd4⟩, he⟩ := hd
      have h1 := digitVal_le_of_isDigitChar ha
      have h2 := digitVal_le_of_isDigitChar hb
      have h3 := digitVal_le_of_isDigitChar hc
      have h4 := digitVal_le_of_isDigitChar hd4
      have h5 := digitVal_le_of_isDigitChar he
      simp only [Option.some.injEq, Prod.mk.injEq] at h
      omega
    · simp at h
  · simp at h

lemma matchPairAt_le {cs : List Char} {lo hi : Nat}
    (h : matchPairAt cs = some (lo, hi)) : lo ≤ 99999 ∧ hi ≤ 99999 := by
  unfold matchPairAt at h
  split at h
  · simp at h
  · rename_i lo' rest hlo
    split at h
    · rename_i rest2
      split at h
      · rename_i hi' rest3 hhi
        simp only [Option.some.injEq, Prod.mk.injEq] at h
        obtain ⟨rfl, rfl⟩ := h
        exact ⟨fiveDigits_le hlo, fiveDigits_le hhi⟩
      · simp at h
    · simp at h

lemma matchAt_pair_le {cs : List Char} {lo hi : Nat}
    (h : matchAt cs = some (.pair lo hi)) : lo ≤ 99999 ∧ hi ≤ 99999 := by
  unfold matchAt at h
  split at h
  · rename_i lo' hi' hp
    simp only [Option.some.injEq, PriceMatch.pair.injEq] at h
    obtain ⟨rfl, rfl⟩ := h
    exact matchPairAt_le hp
  · split at h
    · simp at h
    · simp at h

lemma matchAt_single_le {cs : List Char} {n : Nat}
    (h : matchAt cs = some (.single n)) : n ≤ 99999 := by
  unfold matchAt at h
  split at h
  · simp at h
  · split at h
    · rename_i n' rest hn
      simp only [Option.some.injEq, PriceMatch.single.injEq] at h
      subst h
      exact fiveDigits_le hn
    · simp at h

lemma findFirstMatch_pair_le :
    ∀ {cs : List Char} {lo hi : Nat},
      findFirstMatch cs = some (.pair lo hi) → lo ≤ 99999 ∧ hi ≤ 99999 := by
  intro cs
  induction cs with
  | nil => intro lo hi h; simp [findFirstMatch] at h
  | cons c rest ih =>
    intro lo hi h
    rw [findFirstMatch] at h
    cases hm : matchAt (c :: rest) with
    | some m => rw [hm] at h; simp only [Option.some.injEq] at h; subst h; exact matchAt_pair_le hm
    | none => rw [hm] at h; exact ih h

lemma findFirstMatch_single_le :
    ∀ {cs : List Char} {n : Nat},
      findFirstMatch cs = some (.single n) → n ≤ 99999 := by
  intro cs
  induction cs with
  | nil => intro n h; simp [findFirstMatch] at h
  | cons c rest ih =>
    intro n h
    rw [findFirstMatch] at h
    cases hm : matchAt (c :: rest) with
    | some m => rw [hm] at h; simp only [Option.some.injEq] at h; subst h; exact matchAt_single_le hm
    | none => rw [hm] at h; exact ih h

/-!
## Claims
-/

/-- Claim C1: for every invocation date, `generate_price_history` returns
exactly 30 points, oldest first with strictly increasing dates, covering the
30 calendar days preceding the invocation date (the invocation date excluded),
and the point `i` days before the invocation date (`i` counting 30 down to 1,
stored at index `30 - i`) has price `80500 + (i % 10) * 500 - 2000`. -/
theorem claim_C1 (today : Int) :
    (generate_price_history today).length = 30 ∧
    ((generate_price_history today).map (fun p => p.date)).Pairwise (fun a b => a < b) ∧
    (∀ i : Nat, 1 ≤ i → i ≤ 30 →
      (generate_price_history today)[30 - i]? =
        some { date := today - (i : Int),
               price := 80500 + ((i % 10 : Nat) : Int) * 500 - 2000 }) := by
  refine ⟨generate_price_history_length today, ?_, ?_⟩
  · rw [List.pairwise_iff_getElem]
    intro i j hi hj hij
    simp only [List.length_map, generate_price_history_length] at hi hj
    simp only [generate_price_history, List.getElem_map, List.getElem_range]
    omega
  · intro i h1 h30
    rw [generate_price_history_getElem today (30 - i) (by omega)]
    have hi : 30 - (30 - i) = i := by omega
    rw [hi]

/-- Witness for claim C1 at `today = 0`, `i = 7`. -/
theorem claim_C1_witness :
    (generate_price_history 0)[30 - 7]? =
      some { date := (0 : Int) - ((7 : Nat) : Int),
             price := 80500 + ((7 % 10 : Nat) : Int) * 500 - 2000 } :=
  (claim_C1 0).2.2 7 (by decide) (by decide)

/-- Claim C10: every price produced by `generate_price_history` lies in
`[78500, 83000]`, and the price depends only on the day index modulo 10, so
two points whose days-before-reference indices differ by 10 carry equal
prices. -/
theorem claim_C10 (today : Int) :
    (∀ p ∈ generate_price_history today, 78500 ≤ p.price ∧ p.price ≤ 83000) ∧
    (∀ i : Nat, 1 ≤ i → i + 10 ≤ 30 →
      ((generate_price_history today)[30 - i]?).map (fun p => p.price) =
        ((generate_price_history today)[30 - (i + 10)]?).map (fun p => p.price)) := by
  constructor
  · intro p hp
    simp only [generate_price_history, List.mem_map, List.mem_range] at hp
    obtain ⟨k, hk, rfl⟩ := hp
    simp only
    omega
  · intro i h1 h10
    rw [generate_price_history_getElem today (30 - i) (by omega),
      generate_price_history_getElem today (30 - (i + 10)) (by omega)]
    have hi : 30 - (30 - i) = i := by omega
    have hj : 30 - (30 - (i + 10)) = i + 10 := by omega
    have hmod : (i + 10) % 10 = i % 10 := by omega
    simp [hi, hj, hmod]
    omega

/-- Claim C2: on the spot fetcher's success path (the fetched text contains a
five-digit number or a hyphen-separated pair of five-digit numbers, first
match only), `fetch_smm_price` sets `battery_grade_price` to the matched
number, or to the midpoint `(low + high) / 2` for a pair; sets
`industrial_grade_price` to `battery_grade_price - 2200`; and sets `change`
to the constant `-0.5` regardless of the page content. -/
theorem claim_C2 (today : Int) (text : String) (m : PriceMatch)
    (h : findFirstMatch text.toList = some m) :
    (fetch_smm_price today (some text)).1 =
      match m with
      | .pair lo hi =>
          { date := today
            battery_grade_price := some (((lo : ℚ) + (hi : ℚ)) / 2)
            industrial_grade_price := some (((lo : ℚ) + (hi : ℚ)) / 2 - 2200)
            change := -0.5 }
      | .single n =>
          { date := today
            battery_grade_price := some (n : ℚ)
            industrial_grade_price := some ((n : ℚ) - 2200)
            change := -0.5 } := by
  have h' : findFirstMatch text.data = some m := h
  cases m with
  | pair lo hi => simp [fetch_smm_price, h']
  | single n => simp [fetch_smm_price, h']

/-- Witness for claim C2: the page text `"80500-82300"` matches the pair
alternative and yields midpoint 81400, industrial 79200, change -0.5. -/
theorem claim_C2_witness :
    (fetch_smm_price 0 (some "80500-82300")).1 =
      { date := 0
        battery_grade_price := some ((((80500 : Nat) : ℚ) + ((82300 : Nat) : ℚ)) / 2)
        industrial_grade_price :=
          some ((((80500 : Nat) : ℚ) + ((82300 : Nat) : ℚ)) / 2 - 2200)
        change := -0.5 } :=
  claim_C2 0 "80500-82300" (.pair 80500 82300) (by decide)

/-- Claim C3: when the spot fetch raises or times out (`fetched = none`), or
when no five-digit pattern occurs in the fetched text, `fetch_smm_price`
returns exactly the fallback values (80500.0, 78300.0, -0.5) and prints a
warning line. -/
theorem claim_C3 (today : Int) :
    fetch_smm_price today none =
      ({ date := today, battery_grade_price := some 80500.0,
         industrial_grade_price := some 78300.0, change := -0.5 }, true) ∧
    ∀ text : String, findFirstMatch text.toList = none →
      fetch_smm_price today (some text) =
        ({ date := today, battery_grade_price := some 80500.0,
           industrial_grade_price := some 78300.0, change := -0.5 }, true) := by
  refine ⟨rfl, ?_⟩
  intro text h
  have h' : findFirstMatch text.data = none := h
  simp [fetch_smm_price, h']

/-- Witness for claim C3: the text `"no price here"` contains no five-digit
pattern, so the fallback tuple is returned with a warning. -/
theorem claim_C3_witness :
    fetch_smm_price 0 (some "no price here") =
      ({ date := 0, battery_grade_price := some 80500.0,
         industrial_grade_price := some 78300.0, change := -0.5 }, true) :=
  (claim_C3 0).2 "no price here" (by decide)

/-- Claim C8: on every return path of `fetch_smm_price` (success,
pattern-not-found fallback, exception fallback) both prices are set and
`industrial_grade_price = battery_grade_price - 2200`. -/
theorem claim_C8 (today : Int) (fetched : Option String) :
    ∃ b : ℚ,
      (fetch_smm_price today fetched).1.battery_grade_price = some b ∧
      (fetch_smm_price today fetched).1.industrial_grade_price = some (b - 2200) := by
  cases fetched with
  | none => exact ⟨80500, by norm_num [fetch_smm_price]⟩
  | some text =>
    cases hm : findFirstMatch text.data with
    | none => exact ⟨80500, by norm_num [fetch_smm_price, hm]⟩
    | some m =>
      cases m with
      | pair lo hi =>
        refine ⟨((lo : ℚ) + (hi : ℚ)) / 2, ?_⟩
        simp [fetch_smm_price, hm]
      | single n =>
        refine ⟨(n : ℚ), ?_⟩
        simp [fetch_smm_price, hm]

/-- Counterexample to claim C9 as stated: the page text `"00000"` matches the
five-digit pattern with value 0 (leading zeros), so the returned
`battery_grade_price` is 0, outside `[10000, 99999]`. -/
theorem claim_C9_counterexample :
    (fetch_smm_price 0 (some "00000")).1.battery_grade_price = some 0 ∧
    ¬ (10000 ≤ (0 : ℚ) ∧ (0 : ℚ) ≤ 99999) := by
  constructor
  · decide
  · norm_num

/-- Claim C9 (amended): for every input page text, the `battery_grade_price`
returned by `fetch_smm_price` lies in `[0, 99999]` — a matched five-digit
group may carry leading zeros, so the value can be below 10000, but never
exceeds 99999; the midpoint of a pair of five-digit values also stays in
range, and the fallback 80500 is in range. -/
theorem claim_C9_amended (today : Int) (text : String) (b : ℚ)
    (h : (fetch_smm_price today (some text)).1.battery_grade_price = some b) :
    0 ≤ b ∧ b ≤ 99999 := by
  cases hm : findFirstMatch text.data with
  | none =>
    simp [fetch_smm_price, hm] at h
    subst h
    norm_num
  | some m =>
    cases m with
    | pair lo hi =>
      simp [fetch_smm_price, hm] at h
      obtain ⟨hlo, hhi⟩ := findFirstMatch_pair_le hm
      have hlo' : (lo : ℚ) ≤ 99999 := by exact_mod_cast Nat.cast_le.mpr hlo
      have hhi' : (hi : ℚ) ≤ 99999 := by exact_mod_cast Nat.cast_le.mpr hhi
      have h0lo : (0 : ℚ) ≤ (lo : ℚ) := by positivity
      have h0hi : (0 : ℚ) ≤ (hi : ℚ) := by positivity
      subst h
      constructor
      · positivity
      · linarith
    | single n =>
      simp [fetch_smm_price, hm] at h
      have hn := findFirstMatch_single_le hm
      have hn' : (n : ℚ) ≤ 99999 := by exact_mod_cast Nat.cast_le.mpr hn
      subst h
      constructor
      · positivity
      · exact hn'

/-- Witness for the amended claim C9 at the text `"81200"`. -/
theorem claim_C9_witness :
    0 ≤ ((81200 : Nat) : ℚ) ∧ ((81200 : Nat) : ℚ) ≤ 99999 :=
  claim_C9_amended 0 "81200" ((81200 : Nat) : ℚ) (by decide)

/-- Witness for claim C10 at `today = 0`: the point 5 days before the
reference date (price 81000) is in range, and indices 5 and 15 carry equal
prices. -/
theorem claim_C10_witness :
    (78500 ≤ ({ date := -5, price := 81000 } : HistoryPoint).price ∧
      ({ date := -5, price := 81000 } : HistoryPoint).price ≤ 83000) ∧
    ((generate_price_history 0)[30 - 5]?).map (fun p => p.price) =
      ((generate_price_history 0)[30 - (5 + 10)]?).map (fun p => p.price) :=
  ⟨(claim_C10 0).1 { date := -5, price := 81000 } (by decide),
   (claim_C10 0).2 5 (by decide) (by decide)⟩

/-- Claim C4: `fetch_futures_price` falls back to (79800.0, 0.3) when the
fetch raises or the text has no five-digit number; otherwise the futures
price is the first five-digit number in the text and the change is the
constant 0.3. -/
theorem claim_C4 :
    (fetch_futures_price none).1 =
      { futures_price := some 79800.0, futures_change := 0.3 } ∧
    ∀ text : String,
      (findFirstFive text.toList = none →
        (fetch_futures_price (some text)).1 =
          { futures_price := some 79800.0, futures_change := 0.3 }) ∧
      (∀ n : Nat, findFirstFive text.toList = some n →
        (fetch_futures_price (some text)).1 =
          { futures_price := some (n : ℚ), futures_change := 0.3 }) := by
  refine ⟨rfl, ?_⟩
  intro text
  constructor
  · intro h
    have h' : findFirstFive text.data = none := h
    simp [fetch_futures_price, h']
  · intro n h
    have h' : findFirstFive text.data = some n := h
    simp [fetch_futures_price, h']

/-- Witness for claim C4: the text `"flat"` holds no five-digit number, so
the fallback is returned; the text `"at 81500 yuan"` yields 81500. -/
theorem claim_C4_witness :
    (fetch_futures_price (some "flat")).1 =
      { futures_price := some 79800.0, futures_change := 0.3 } ∧
    (fetch_futures_price (some "at 81500 yuan")).1 =
      { futures_price := some ((81500 : Nat) : ℚ), futures_change := 0.3 } :=
  ⟨(claim_C4.2 "flat").1 (by decide),
   (claim_C4.2 "at 81500 yuan").2 81500 (by decide)⟩

/-- Claim C5: when the language-model call fails, the summary is determined
solely by the sign of `spot_price.daily_change_percent`: positive gives the
canned rising sentence, negative the canned falling sentence, zero the canned
flat sentence, each verbatim. -/
theorem claim_C5 (market_data : MarketData) :
    (0 < market_data.spot_price.daily_change_percent →
      generate_ai_analysis none market_data = rising_summary) ∧
    (market_data.spot_price.daily_change_percent < 0 →
      generate_ai_analysis none market_data = falling_summary) ∧
    (market_data.spot_price.daily_change_percent = 0 →
      generate_ai_analysis none market_data = flat_summary) := by
  refine ⟨?_, ?_, ?_⟩
  · intro h
    simp [generate_ai_analysis, rising_summary, h]
  · intro h
    have h1 : ¬ market_data.spot_price.daily_change_percent > 0 := not_lt.mpr h.le
    simp [generate_ai_analysis, falling_summary, h, h1]
  · intro h
    simp [generate_ai_analysis, flat_summary, h]

/-- Witness for claim C5 at change percents +1, -1 and 0. -/
theorem claim_C5_witness :
    generate_ai_analysis none
      { timestamp := 0, date := 0,
        spot_price :=
          { battery_grade := none, industrial_grade := none, daily_change_percent := 1 },
        futures_price := { lc_main := none, daily_change_percent := 0 },
        price_history := [] } = rising_summary ∧
    generate_ai_analysis none
      { timestamp := 0, date := 0,
        spot_price :=
          { battery_grade := none, industrial_grade := none, daily_change_percent := -1 },
        futures_price := { lc_main := none, daily_change_percent := 0 },
        price_history := [] } = falling_summary ∧
    generate_ai_analysis none
      { timestamp := 0, date := 0,
        spot_price :=
          { battery_grade := none, industrial_grade := none, daily_change_percent := 0 },
        futures_price := { lc_main := none, daily_change_percent := 0 },
        price_history := [] } = flat_summary :=
  ⟨(claim_C5
      { timestamp := 0, date := 0,
        spot_price :=
          { battery_grade := none, industrial_grade := none, daily_change_percent := 1 },
        futures_price := { lc_main := none, daily_change_percent := 0 },
        price_history := [] }).1 (by norm_num),
   (claim_C5
      { timestamp := 0, date := 0,
        spot_price :=
          { battery_grade := none, industrial_grade := none, daily_change_percent := -1 },
        futures_price := { lc_main := none, daily_change_percent := 0 },
        price_history := [] }).2.1 (by norm_num),
   (claim_C5
      { timestamp := 0, date := 0,
        spot_price :=
          { battery_grade := none, industrial_grade := none, daily_change_percent := 0 },
        futures_price := { lc_main := none, daily_change_percent := 0 },
        price_history := [] }).2.2 rfl⟩

/-- Counterexample to claim C6 as stated: in a run where both fetchers fail
but the language-model call succeeds with an empty message content, the
report's `ai_analysis` is the empty string. -/
theorem claim_C6_counterexample :
    (main_report 0 0 none none (some "")).ai_analysis = "" := by decide

/-- Claim C6 (amended): a full pipeline run in which both network fetchers
fail still completes and produces a report whose date is the invocation
date, whose spot, futures and history fields are all populated (both spot
prices and the futures price set, 30 history points), and whose
`ai_analysis` is non-empty, provided the language-model call fails (the
fallback sentence is then used) or returns content that is non-empty after
trimming. -/
theorem claim_C6_amended (today ts : Int) (llmResult : Option String)
    (h : llmResult = none ∨ ∃ s : String, llmResult = some s ∧ strip s ≠ "") :
    (main_report today ts none none llmResult).date = today ∧
    (main_report today ts none none llmResult).spot_price.battery_grade.isSome = true ∧
    (main_report today ts none none llmResult).spot_price.industrial_grade.isSome = true ∧
    (main_report today ts none none llmResult).futures_price.lc_main.isSome = true ∧
    (main_report today ts none none llmResult).price_history.length = 30 ∧
    (main_report today ts none none llmResult).ai_analysis ≠ "" := by
  refine ⟨rfl, rfl, rfl, rfl, generate_price_history_length today, ?_⟩
  obtain rfl | ⟨s, rfl, hs⟩ := h
  · have h1 : (main_report today ts none none none).ai_analysis =
        generate_ai_analysis none (fetch_all_data today ts none none) := rfl
    rw [h1]
    simp only [generate_ai_analysis]
    rw [show (fetch_all_data today ts none none).spot_price.daily_change_percent
          = -0.5 from rfl]
    norm_num
    decide
  · exact hs

/-- Witness for the amended claim C6: a run with both fetchers and the
language-model call failing. -/
theorem claim_C6_witness :
    (main_report 1 2 none none none).date = 1 ∧
    (main_report 1 2 none none none).spot_price.battery_grade.isSome = true ∧
    (main_report 1 2 none none none).spot_price.industrial_grade.isSome = true ∧
    (main_report 1 2 none none none).futures_price.lc_main.isSome = true ∧
    (main_report 1 2 none none none).price_history.length = 30 ∧
    (main_report 1 2 none none none).ai_analysis ≠ "" :=
  claim_C6_amended 1 2 none (Or.inl rfl)

/-- Claim C7: `save_data` first creates every missing parent directory of the
target path, then writes the report so that deserializing the stored value
yields the original report, all fields (the non-ASCII summary string
included) preserved; a failing directory creation or write is not caught and
propagates. -/
theorem claim_C7 (fs : FS) (r : MarketReport) (w : Bool) :
    (∃ fs2, save_data true true fs r = Except.ok fs2 ∧
      (∀ d ∈ pathAncestors (dirname data_file), d ∈ fs2.dirs) ∧
      readFile' fs2 data_file = some (encReport r) ∧
      decReport (encReport r) = some r) ∧
    save_data false w fs r = Except.error () ∧
    save_data true false fs r = Except.error () := by
  refine ⟨⟨writeFile' (makedirs fs (dirname data_file)) data_file (encReport r),
    rfl, ?_, ?_, decReport_encReport r⟩, rfl, rfl⟩
  · intro d hd
    simp only [writeFile', makedirs, List.mem_append]
    exact Or.inr hd
  · simp [readFile', writeFile']

/-- Witness for claim C7 on a concrete filesystem and report: the error
paths propagate and the round trip holds. -/
theorem claim_C7_witness :
    save_data false false { dirs := [], files := [] } sampleReport = Except.error () ∧
    save_data true false { dirs := [], files := [] } sampleReport = Except.error () ∧
    decReport (encReport sampleReport) = some sampleReport := by
  refine ⟨(claim_C7 { dirs := [], files := [] } sampleReport false).2.1,
    (claim_C7 { dirs := [], files := [] } sampleReport false).2.2, ?_⟩
  obtain ⟨fs2, h1, h2, h3, h4⟩ := (claim_C7 { dirs := [], files := [] } sampleReport false).1
  exact h4
